import Mathlib

/-!
Verification of the @tsonic/globals ambient type-declaration package.

The repository consists of two TypeScript declaration files (`index.d.ts`
and the alternative-mode file), each of which is a sequence of top-level
constructs: `import` statements, one `declare global` block holding the
ambient declarations, and an empty `export {}` marker.  There is no
executable code.  We embed the declaration surface syntactically: type
expressions become a small first-order syntax `TE`, interface members
become `Member`, top-level ambient declarations become `GlobalDecl`, and
each file becomes a `List TopLevel`.  The transcriptions in namespaces
`IndexDts` and `Part000` follow the two source files line by line.

A second, small semantic model (`STy` and the functions in namespace
`UtilTy`) gives the computational meaning of the fourteen utility-type
aliases, each translated from its alias definition in the source; it is
used for the claims about the behaviour of `Partial`, `Pick`, `Omit`,
`Exclude`/`Extract` and the rest.
-/

/-- Type expressions of the declaration files, encoded as a binary
tree of atoms.  Constructor-shaped forms (`tRef`, `tUni`, `tFn`, ...)
are built by the tagged smart constructors below, so distinct
TypeScript type-expression forms have distinct encodings. -/
inductive TE where
  | atom : String → TE
  | pair : TE → TE → TE
  deriving DecidableEq, Repr

/-- Encode a list of type expressions as a right-nested tree. -/
def teList : List TE → TE
  | [] => TE.atom "nil"
  | t :: ts => TE.pair t (teList ts)

/-- Reference to a named type with type arguments, e.g. `IList_1<T>`. -/
def tRef (n : String) (args : List TE) : TE :=
  TE.pair (TE.atom "ref") (TE.pair (TE.atom n) (teList args))

/-- Reference to a named type with no type arguments. -/
def tN (n : String) : TE := tRef n []

/-- Union type `A | B | ...`. -/
def tUni (ts : List TE) : TE := TE.pair (TE.atom "union") (teList ts)

/-- String-literal type. -/
def tLit (s : String) : TE := TE.pair (TE.atom "lit") (TE.atom s)

/-- Boolean-literal type `true` or `false` (used by IteratorYieldResult). -/
def tLitBool (b : Bool) : TE :=
  TE.pair (TE.atom "litBool") (TE.atom (if b then "true" else "false"))

/-- The primitive keyword types. -/
def tStr : TE := TE.atom "string"

def tNum : TE := TE.atom "number"

def tBool : TE := TE.atom "boolean"

def tSym : TE := TE.atom "symbol"

def tAny : TE := TE.atom "any"

def tUnknown : TE := TE.atom "unknown"

def tNever : TE := TE.atom "never"

def tVoid : TE := TE.atom "void"

def tNull : TE := TE.atom "null"

def tUndef : TE := TE.atom "undefined"

/-- Body of the four compiler-implemented template-literal aliases. -/
def tIntrinsic : TE := TE.atom "intrinsic"

/-- Array type `T[]`. -/
def tArr (t : TE) : TE := TE.pair (TE.atom "arrayOf") t

/-- Read-only array type `readonly T[]`. -/
def tRoArr (t : TE) : TE := TE.pair (TE.atom "roArrayOf") t

/-- Tuple type `[A, B, ...]`. -/
def tTuple (ts : List TE) : TE := TE.pair (TE.atom "tuple") (teList ts)

/-- Required function parameter `name: T`. -/
def tParam (n : String) (t : TE) : TE :=
  TE.pair (TE.atom "param") (TE.pair (TE.atom n) t)

/-- Optional function parameter `name?: T`. -/
def tOptParam (n : String) (t : TE) : TE :=
  TE.pair (TE.atom "optParam") (TE.pair (TE.atom n) t)

/-- Rest parameter `...name: T`. -/
def tRestParam (n : String) (t : TE) : TE :=
  TE.pair (TE.atom "restParam") (TE.pair (TE.atom n) t)

/-- Function type `(params) => ret`. -/
def tFn (ps : List TE) (ret : TE) : TE :=
  TE.pair (TE.atom "fn") (TE.pair (teList ps) ret)

/-- Constructor type `new (params) => ret`. -/
def tCtorT (ps : List TE) (ret : TE) : TE :=
  TE.pair (TE.atom "ctorFn") (TE.pair (teList ps) ret)

/-- Type operator `keyof T`. -/
def tKeyof (t : TE) : TE := TE.pair (TE.atom "keyof") t

/-- Indexed access `T[K]`. -/
def tIdx (obj key : TE) : TE := TE.pair (TE.atom "indexedAccess") (TE.pair obj key)

/-- An `infer X` position inside a conditional type. -/
def tInfer (n : String) : TE := TE.pair (TE.atom "infer") (TE.atom n)

/-- Conditional type `chk extends ext ? tt : ff`. -/
def tCond (chk ext tt ff : TE) : TE :=
  TE.pair (TE.atom "cond") (TE.pair chk (TE.pair ext (TE.pair tt ff)))

/-- Mapped type `{ [v in src] mod : val }`; `mod` is one of
"plain", "opt" (adds `?`), "remOpt" (`-?`), "ro" (`readonly`). -/
def tMapped (mod v : String) (src val : TE) : TE :=
  TE.pair (TE.atom "mapped")
    (TE.pair (TE.atom mod) (TE.pair (TE.atom v) (TE.pair src val)))

/-- Type parameter `X` with no constraint and no default. -/
def tTp (n : String) : TE :=
  TE.pair (TE.atom "tp") (TE.pair (TE.atom n) (TE.pair (TE.atom "noC") (TE.atom "noD")))

/-- Type parameter `X extends c`. -/
def tTpC (n : String) (c : TE) : TE :=
  TE.pair (TE.atom "tp") (TE.pair (TE.atom n) (TE.pair (TE.pair (TE.atom "c") c) (TE.atom "noD")))

/-- Type parameter `X = d`. -/
def tTpD (n : String) (d : TE) : TE :=
  TE.pair (TE.atom "tp") (TE.pair (TE.atom n) (TE.pair (TE.atom "noC") (TE.pair (TE.atom "d") d)))

/-- Member of an interface or class body. -/
inductive Member where
  /-- Method signature: name, optional (`?`), type parameters, parameters, return type. -/
  | meth : String → Bool → List TE → List TE → TE → Member
  /-- Property signature: name, readonly flag, optional flag, type. -/
  | prop : String → Bool → Bool → TE → Member
  /-- Index signature: readonly flag, key type, value type. -/
  | idx : Bool → TE → TE → Member
  /-- Well-known-symbol method `[Symbol.s](params): ret`. -/
  | symMeth : String → List TE → TE → Member
  /-- Construct signature `new <tps>(params): ret` (also a class constructor). -/
  | ctorMem : List TE → List TE → TE → Member
  deriving DecidableEq, Repr

/-- One ambient declaration inside the `declare global` block. -/
inductive GlobalDecl where
  /-- Interface: name, type parameters, extends clause, members. -/
  | interfaceD : String → List TE → List TE → List Member → GlobalDecl
  /-- Ambient class: name, type parameters, members. -/
  | classD : String → List TE → List Member → GlobalDecl
  /-- Type alias: name, type parameters, body. -/
  | typeAliasD : String → List TE → TE → GlobalDecl
  /-- Ambient const: name, type. -/
  | constD : String → TE → GlobalDecl
  deriving DecidableEq, Repr

/-- Top-level construct of a declaration file. -/
inductive TopLevel where
  /-- Import: type-only flag, imported names, package name, path within the package. -/
  | importD : Bool → List String → String → String → TopLevel
  /-- The `declare global` block with its ambient declarations. -/
  | globalBlock : List GlobalDecl → TopLevel
  /-- A declaration at module scope, outside `declare global` (none occur). -/
  | moduleDecl : GlobalDecl → TopLevel
  /-- An executable top-level statement (none occur). -/
  | runtimeStmt : String → TopLevel
  /-- The empty `export` marker that makes the file a module. -/
  | exportEmpty : TopLevel
  deriving DecidableEq, Repr


namespace IndexDts

/-- `interface Array<T> extends Array$instance, __Array$views, IList_1<T>,
ICollection_1<T>, IEnumerable_1<T>, IReadOnlyList_1<T>,
IReadOnlyCollection_1<T>` with a numeric indexer and `[Symbol.iterator]`
(src/index.d.ts lines 33-36). -/
def arrayDecl : GlobalDecl :=
  .interfaceD "Array" [tTp "T"]
    [tN "Array$instance", tN "__Array$views", tRef "IList_1" [tN "T"],
     tRef "ICollection_1" [tN "T"], tRef "IEnumerable_1" [tN "T"],
     tRef "IReadOnlyList_1" [tN "T"], tRef "IReadOnlyCollection_1" [tN "T"]]
    [.idx false tNum (tN "T"),
     .symMeth "iterator" [] (tRef "IterableIterator" [tN "T"])]

/-- `interface ReadonlyArray<T>` (src/index.d.ts lines 38-41). -/
def readonlyArrayDecl : GlobalDecl :=
  .interfaceD "ReadonlyArray" [tTp "T"]
    [tN "Array$instance", tN "__Array$views", tRef "IReadOnlyList_1" [tN "T"],
     tRef "IReadOnlyCollection_1" [tN "T"], tRef "IEnumerable_1" [tN "T"]]
    [.idx true tNum (tN "T"),
     .symMeth "iterator" [] (tRef "IterableIterator" [tN "T"])]

/-- `interface String extends String$instance, __String$views {}`. -/
def stringDecl : GlobalDecl :=
  .interfaceD "String" [] [tN "String$instance", tN "__String$views"] []

/-- `interface Number extends Double$instance, __Double$views {}`. -/
def numberDecl : GlobalDecl :=
  .interfaceD "Number" [] [tN "Double$instance", tN "__Double$views"] []

/-- `interface Boolean extends Boolean$instance, __Boolean$views {}`. -/
def booleanDecl : GlobalDecl :=
  .interfaceD "Boolean" [] [tN "Boolean$instance", tN "__Boolean$views"] []

/-- `interface Object extends Object$instance` with a `constructor` property. -/
def objectDecl : GlobalDecl :=
  .interfaceD "Object" [] [tN "Object$instance"]
    [.prop "constructor" false false (tN "Function")]

/-- `interface Function` with a `prototype: any` property. -/
def functionDecl : GlobalDecl :=
  .interfaceD "Function" [] [] [.prop "prototype" false false tAny]

/-- `interface CallableFunction extends Function {}`. -/
def callableFunctionDecl : GlobalDecl :=
  .interfaceD "CallableFunction" [] [tN "Function"] []

/-- `interface NewableFunction extends Function {}`. -/
def newableFunctionDecl : GlobalDecl :=
  .interfaceD "NewableFunction" [] [tN "Function"] []

/-- `interface IArguments {}`. -/
def iArgumentsDecl : GlobalDecl := .interfaceD "IArguments" [] [] []

/-- `interface RegExp {}`. -/
def regExpDecl : GlobalDecl := .interfaceD "RegExp" [] [] []

/-- `interface SymbolConstructor` with the seven well-known symbol keys. -/
def symbolConstructorDecl : GlobalDecl :=
  .interfaceD "SymbolConstructor" [] []
    [.prop "iterator" true false tSym,
     .prop "asyncIterator" true false tSym,
     .prop "hasInstance" true false tSym,
     .prop "isConcatSpreadable" true false tSym,
     .prop "species" true false tSym,
     .prop "toPrimitive" true false tSym,
     .prop "toStringTag" true false tSym]

/-- `const Symbol: SymbolConstructor`. -/
def symbolConstDecl : GlobalDecl := .constD "Symbol" (tN "SymbolConstructor")

/-- `type PropertyKey = string | number | symbol`. -/
def propertyKeyDecl : GlobalDecl :=
  .typeAliasD "PropertyKey" [] (tUni [tStr, tNum, tSym])

/-- The fourteen utility-type aliases (src/index.d.ts lines 107-120),
each transcribed from its alias body. -/
def utilityAliasDecls : List GlobalDecl :=
  [.typeAliasD "Partial" [tTp "T"]
     (tMapped "opt" "P" (tKeyof (tN "T")) (tIdx (tN "T") (tN "P"))),
   .typeAliasD "Required" [tTp "T"]
     (tMapped "remOpt" "P" (tKeyof (tN "T")) (tIdx (tN "T") (tN "P"))),
   .typeAliasD "Readonly" [tTp "T"]
     (tMapped "ro" "P" (tKeyof (tN "T")) (tIdx (tN "T") (tN "P"))),
   .typeAliasD "Pick" [tTp "T", tTpC "K" (tKeyof (tN "T"))]
     (tMapped "plain" "P" (tN "K") (tIdx (tN "T") (tN "P"))),
   .typeAliasD "Record" [tTpC "K" (tKeyof tAny), tTp "T"]
     (tMapped "plain" "P" (tN "K") (tN "T")),
   .typeAliasD "Exclude" [tTp "T", tTp "U"]
     (tCond (tN "T") (tN "U") tNever (tN "T")),
   .typeAliasD "Extract" [tTp "T", tTp "U"]
     (tCond (tN "T") (tN "U") (tN "T") tNever),
   .typeAliasD "Omit" [tTp "T", tTpC "K" (tKeyof tAny)]
     (tRef "Pick" [tN "T", tRef "Exclude" [tKeyof (tN "T"), tN "K"]]),
   .typeAliasD "NonNullable" [tTp "T"]
     (tCond (tN "T") (tUni [tNull, tUndef]) tNever (tN "T")),
   .typeAliasD "Parameters" [tTpC "T" (tFn [tRestParam "args" tAny] tAny)]
     (tCond (tN "T") (tFn [tRestParam "args" (tInfer "P")] tAny) (tN "P") tNever),
   .typeAliasD "ConstructorParameters" [tTpC "T" (tCtorT [tRestParam "args" tAny] tAny)]
     (tCond (tN "T") (tCtorT [tRestParam "args" (tInfer "P")] tAny) (tN "P") tNever),
   .typeAliasD "ReturnType" [tTpC "T" (tFn [tRestParam "args" tAny] tAny)]
     (tCond (tN "T") (tFn [tRestParam "args" tAny] (tInfer "R")) (tN "R") tAny),
   .typeAliasD "InstanceType" [tTpC "T" (tCtorT [tRestParam "args" tAny] tAny)]
     (tCond (tN "T") (tCtorT [tRestParam "args" tAny] (tInfer "R")) (tN "R") tAny),
   .typeAliasD "Awaited" [tTp "T"]
     (tCond (tN "T") (tRef "PromiseLike" [tInfer "U"]) (tRef "Awaited" [tN "U"]) (tN "T"))]

/-- `interface Promise<T>` with `then`, `catch`, `finally`. -/
def promiseDecl : GlobalDecl :=
  .interfaceD "Promise" [tTp "T"] []
    [.meth "then" false [tTpD "TResult1" (tN "T"), tTpD "TResult2" tNever]
       [tOptParam "onfulfilled"
          (tUni [tFn [tParam "value" (tN "T")]
                   (tUni [tN "TResult1", tRef "PromiseLike" [tN "TResult1"]]),
                 tUndef, tNull]),
        tOptParam "onrejected"
          (tUni [tFn [tParam "reason" tAny]
                   (tUni [tN "TResult2", tRef "PromiseLike" [tN "TResult2"]]),
                 tUndef, tNull])]
       (tRef "Promise" [tUni [tN "TResult1", tN "TResult2"]]),
     .meth "catch" false [tTpD "TResult" tNever]
       [tOptParam "onrejected"
          (tUni [tFn [tParam "reason" tAny]
                   (tUni [tN "TResult", tRef "PromiseLike" [tN "TResult"]]),
                 tUndef, tNull])]
       (tRef "Promise" [tUni [tN "T", tN "TResult"]]),
     .meth "finally" false []
       [tOptParam "onfinally" (tUni [tFn [] tVoid, tUndef, tNull])]
       (tRef "Promise" [tN "T"])]

/-- `interface PromiseLike<T>` with `then`. -/
def promiseLikeDecl : GlobalDecl :=
  .interfaceD "PromiseLike" [tTp "T"] []
    [.meth "then" false [tTpD "TResult1" (tN "T"), tTpD "TResult2" tNever]
       [tOptParam "onfulfilled"
          (tUni [tFn [tParam "value" (tN "T")]
                   (tUni [tN "TResult1", tRef "PromiseLike" [tN "TResult1"]]),
                 tUndef, tNull]),
        tOptParam "onrejected"
          (tUni [tFn [tParam "reason" tAny]
                   (tUni [tN "TResult2", tRef "PromiseLike" [tN "TResult2"]]),
                 tUndef, tNull])]
       (tRef "PromiseLike" [tUni [tN "TResult1", tN "TResult2"]])]

/-- `interface PromiseConstructor` with its construct signature and the
`resolve` (two overloads), `reject`, `all`, `race` methods. -/
def promiseConstructorDecl : GlobalDecl :=
  .interfaceD "PromiseConstructor" [] []
    [.ctorMem [tTp "T"]
       [tParam "executor"
          (tFn [tParam "resolve"
                  (tFn [tParam "value" (tUni [tN "T", tRef "PromiseLike" [tN "T"]])] tVoid),
                tParam "reject" (tFn [tOptParam "reason" tAny] tVoid)]
             tVoid)]
       (tRef "Promise" [tN "T"]),
     .meth "resolve" false [] [] (tRef "Promise" [tVoid]),
     .meth "resolve" false [tTp "T"]
       [tParam "value" (tUni [tN "T", tRef "PromiseLike" [tN "T"]])]
       (tRef "Promise" [tN "T"]),
     .meth "reject" false [tTpD "T" tNever] [tOptParam "reason" tAny]
       (tRef "Promise" [tN "T"]),
     .meth "all" false [tTp "T"]
       [tParam "values" (tRoArr (tUni [tN "T", tRef "PromiseLike" [tN "T"]]))]
       (tRef "Promise" [tArr (tN "T")]),
     .meth "race" false [tTp "T"]
       [tParam "values" (tRoArr (tUni [tN "T", tRef "PromiseLike" [tN "T"]]))]
       (tRef "Promise" [tN "T"])]

/-- `const Promise: PromiseConstructor`. -/
def promiseConstDecl : GlobalDecl := .constD "Promise" (tN "PromiseConstructor")

/-- `interface Iterator<T, TReturn = any, TNext = undefined>`. -/
def iteratorDecl : GlobalDecl :=
  .interfaceD "Iterator" [tTp "T", tTpD "TReturn" tAny, tTpD "TNext" tUndef] []
    [.meth "next" false [] [tRestParam "args" (tUni [tTuple [], tTuple [tN "TNext"]])]
       (tRef "IteratorResult" [tN "T", tN "TReturn"]),
     .meth "return" true [] [tOptParam "value" (tN "TReturn")]
       (tRef "IteratorResult" [tN "T", tN "TReturn"]),
     .meth "throw" true [] [tOptParam "e" tAny]
       (tRef "IteratorResult" [tN "T", tN "TReturn"])]

/-- `interface IteratorResult<T, TReturn = any>`. -/
def iteratorResultDecl : GlobalDecl :=
  .interfaceD "IteratorResult" [tTp "T", tTpD "TReturn" tAny] []
    [.prop "done" false false tBool,
     .prop "value" false false (tUni [tN "T", tN "TReturn"])]

/-- `interface IteratorYieldResult<T>` with `done: false`. -/
def iteratorYieldResultDecl : GlobalDecl :=
  .interfaceD "IteratorYieldResult" [tTp "T"] []
    [.prop "done" false false (tLitBool false),
     .prop "value" false false (tN "T")]

/-- `interface IteratorReturnResult<TReturn>` with `done: true`. -/
def iteratorReturnResultDecl : GlobalDecl :=
  .interfaceD "IteratorReturnResult" [tTp "TReturn"] []
    [.prop "done" false false (tLitBool true),
     .prop "value" false false (tN "TReturn")]

/-- `interface Iterable<T, TReturn = any, TNext = undefined>`. -/
def iterableDecl : GlobalDecl :=
  .interfaceD "Iterable" [tTp "T", tTpD "TReturn" tAny, tTpD "TNext" tUndef] []
    [.symMeth "iterator" [] (tRef "Iterator" [tN "T", tN "TReturn", tN "TNext"])]

/-- `interface IterableIterator<T, TReturn = any, TNext = undefined> extends Iterator`. -/
def iterableIteratorDecl : GlobalDecl :=
  .interfaceD "IterableIterator" [tTp "T", tTpD "TReturn" tAny, tTpD "TNext" tUndef]
    [tRef "Iterator" [tN "T", tN "TReturn", tN "TNext"]]
    [.symMeth "iterator" [] (tRef "IterableIterator" [tN "T", tN "TReturn", tN "TNext"])]

/-- `interface AsyncIterator<T, TReturn = any, TNext = undefined>`. -/
def asyncIteratorDecl : GlobalDecl :=
  .interfaceD "AsyncIterator" [tTp "T", tTpD "TReturn" tAny, tTpD "TNext" tUndef] []
    [.meth "next" false [] [tRestParam "args" (tUni [tTuple [], tTuple [tN "TNext"]])]
       (tRef "Promise" [tRef "IteratorResult" [tN "T", tN "TReturn"]]),
     .meth "return" true []
       [tOptParam "value" (tUni [tN "TReturn", tRef "PromiseLike" [tN "TReturn"]])]
       (tRef "Promise" [tRef "IteratorResult" [tN "T", tN "TReturn"]]),
     .meth "throw" true [] [tOptParam "e" tAny]
       (tRef "Promise" [tRef "IteratorResult" [tN "T", tN "TReturn"]])]

/-- `interface AsyncIterable<T, TReturn = any, TNext = undefined>`. -/
def asyncIterableDecl : GlobalDecl :=
  .interfaceD "AsyncIterable" [tTp "T", tTpD "TReturn" tAny, tTpD "TNext" tUndef] []
    [.symMeth "asyncIterator" [] (tRef "AsyncIterator" [tN "T", tN "TReturn", tN "TNext"])]

/-- `interface AsyncIterableIterator<...> extends AsyncIterator<...>`. -/
def asyncIterableIteratorDecl : GlobalDecl :=
  .interfaceD "AsyncIterableIterator" [tTp "T", tTpD "TReturn" tAny, tTpD "TNext" tUndef]
    [tRef "AsyncIterator" [tN "T", tN "TReturn", tN "TNext"]]
    [.symMeth "asyncIterator" []
       (tRef "AsyncIterableIterator" [tN "T", tN "TReturn", tN "TNext"])]

/-- `interface Generator<T = unknown, TReturn = any, TNext = unknown> extends Iterator`. -/
def generatorDecl : GlobalDecl :=
  .interfaceD "Generator" [tTpD "T" tUnknown, tTpD "TReturn" tAny, tTpD "TNext" tUnknown]
    [tRef "Iterator" [tN "T", tN "TReturn", tN "TNext"]]
    [.meth "next" false [] [tRestParam "args" (tUni [tTuple [], tTuple [tN "TNext"]])]
       (tRef "IteratorResult" [tN "T", tN "TReturn"]),
     .meth "return" false [] [tParam "value" (tN "TReturn")]
       (tRef "IteratorResult" [tN "T", tN "TReturn"]),
     .meth "throw" false [] [tParam "e" tAny]
       (tRef "IteratorResult" [tN "T", tN "TReturn"]),
     .symMeth "iterator" [] (tRef "Generator" [tN "T", tN "TReturn", tN "TNext"])]

/-- `interface AsyncGenerator<T = unknown, TReturn = any, TNext = unknown> extends AsyncIterator`. -/
def asyncGeneratorDecl : GlobalDecl :=
  .interfaceD "AsyncGenerator" [tTpD "T" tUnknown, tTpD "TReturn" tAny, tTpD "TNext" tUnknown]
    [tRef "AsyncIterator" [tN "T", tN "TReturn", tN "TNext"]]
    [.meth "next" false [] [tRestParam "args" (tUni [tTuple [], tTuple [tN "TNext"]])]
       (tRef "Promise" [tRef "IteratorResult" [tN "T", tN "TReturn"]]),
     .meth "return" false []
       [tParam "value" (tUni [tN "TReturn", tRef "PromiseLike" [tN "TReturn"]])]
       (tRef "Promise" [tRef "IteratorResult" [tN "T", tN "TReturn"]]),
     .meth "throw" false [] [tParam "e" tAny]
       (tRef "Promise" [tRef "IteratorResult" [tN "T", tN "TReturn"]]),
     .symMeth "asyncIterator" [] (tRef "AsyncGenerator" [tN "T", tN "TReturn", tN "TNext"])]

/-- The four compiler-intrinsic template-literal aliases. -/
def intrinsicAliasDecls : List GlobalDecl :=
  [.typeAliasD "Uppercase" [tTpC "S" tStr] tIntrinsic,
   .typeAliasD "Lowercase" [tTpC "S" tStr] tIntrinsic,
   .typeAliasD "Capitalize" [tTpC "S" tStr] tIntrinsic,
   .typeAliasD "Uncapitalize" [tTpC "S" tStr] tIntrinsic]

/-- All declarations of the `declare global` block of src/index.d.ts,
in source order. -/
def decls : List GlobalDecl :=
  [arrayDecl, readonlyArrayDecl, stringDecl, numberDecl, booleanDecl,
   objectDecl, functionDecl, callableFunctionDecl, newableFunctionDecl,
   iArgumentsDecl, regExpDecl, symbolConstructorDecl, symbolConstDecl,
   propertyKeyDecl]
  ++ utilityAliasDecls
  ++ [promiseDecl, promiseLikeDecl, promiseConstructorDecl, promiseConstDecl,
      iteratorDecl, iteratorResultDecl, iteratorYieldResultDecl,
      iteratorReturnResultDecl, iterableDecl, iterableIteratorDecl,
      asyncIteratorDecl, asyncIterableDecl, asyncIterableIteratorDecl,
      generatorDecl, asyncGeneratorDecl]
  ++ intrinsicAliasDecls

/-- The whole file src/index.d.ts: two imports, the global block and
the empty export. -/
def file : List TopLevel :=
  [.importD false
     ["Array$instance", "__Array$views", "String$instance", "__String$views",
      "Double$instance", "__Double$views", "Boolean$instance", "__Boolean$views",
      "Object$instance"]
     "@tsonic/dotnet" "System/internal/index.js",
   .importD false
     ["IList_1", "ICollection_1", "IEnumerable_1", "IReadOnlyList_1",
      "IReadOnlyCollection_1"]
     "@tsonic/dotnet" "System.Collections.Generic/internal/index.js",
   .globalBlock decls,
   .exportEmpty]

end IndexDts

namespace Part000

/-- `class Error` (src/unnamed/part_000 lines 26-31): fields `name`,
`message`, optional `stack`, and a constructor taking an optional message. -/
def errorDecl : GlobalDecl :=
  .classD "Error" []
    [.prop "name" false false tStr,
     .prop "message" false false tStr,
     .prop "stack" false true tStr,
     .ctorMem [] [tOptParam "message" tStr] (tN "Error")]

/-- `interface Array<T> extends Array$instance, __Array$views,
IEnumerable_1<T>` with a numeric indexer, `[Symbol.iterator]` and the two
`getEnumerator` overloads (src/unnamed/part_000 lines 45-50). -/
def arrayDecl : GlobalDecl :=
  .interfaceD "Array" [tTp "T"]
    [tN "Array$instance", tN "__Array$views", tRef "IEnumerable_1" [tN "T"]]
    [.idx false tNum (tN "T"),
     .symMeth "iterator" [] (tRef "IterableIterator" [tN "T"]),
     .meth "getEnumerator" false [] [] (tRef "IEnumerator_1" [tN "T"]),
     .meth "getEnumerator" false [] [] (tN "IEnumerator")]

/-- `interface ReadonlyArray<T>` (src/unnamed/part_000 lines 52-57). -/
def readonlyArrayDecl : GlobalDecl :=
  .interfaceD "ReadonlyArray" [tTp "T"]
    [tN "Array$instance", tN "__Array$views", tRef "IEnumerable_1" [tN "T"]]
    [.idx true tNum (tN "T"),
     .symMeth "iterator" [] (tRef "IterableIterator" [tN "T"]),
     .meth "getEnumerator" false [] [] (tRef "IEnumerator_1" [tN "T"]),
     .meth "getEnumerator" false [] [] (tN "IEnumerator")]

/-- `interface ArrayConstructor` with `new <T>(size?: number): T[]`
(src/unnamed/part_000 lines 64-66). -/
def arrayConstructorDecl : GlobalDecl :=
  .interfaceD "ArrayConstructor" [] []
    [.ctorMem [tTp "T"] [tOptParam "size" tNum] (tArr (tN "T"))]

/-- `const Array: ArrayConstructor` (src/unnamed/part_000 line 68). -/
def arrayConstDecl : GlobalDecl := .constD "Array" (tN "ArrayConstructor")

/-- `interface String extends String$instance, __String$views {}`. -/
def stringDecl : GlobalDecl :=
  .interfaceD "String" [] [tN "String$instance", tN "__String$views"] []

/-- `interface Number extends Double$instance, __Double$views {}`. -/
def numberDecl : GlobalDecl :=
  .interfaceD "Number" [] [tN "Double$instance", tN "__Double$views"] []

/-- `interface Boolean extends Boolean$instance, __Boolean$views {}`. -/
def booleanDecl : GlobalDecl :=
  .interfaceD "Boolean" [] [tN "Boolean$instance", tN "__Boolean$views"] []

/-- `interface Object extends Object$instance` with a `constructor` property. -/
def objectDecl : GlobalDecl :=
  .interfaceD "Object" [] [tN "Object$instance"]
    [.prop "constructor" false false (tN "Function")]

/-- `interface Function` with a `prototype: any` property. -/
def functionDecl : GlobalDecl :=
  .interfaceD "Function" [] [] [.prop "prototype" false false tAny]

/-- `interface CallableFunction extends Function {}`. -/
def callableFunctionDecl : GlobalDecl :=
  .interfaceD "CallableFunction" [] [tN "Function"] []

/-- `interface NewableFunction extends Function {}`. -/
def newableFunctionDecl : GlobalDecl :=
  .interfaceD "NewableFunction" [] [tN "Function"] []

/-- `interface IArguments {}`. -/
def iArgumentsDecl : GlobalDecl := .interfaceD "IArguments" [] [] []

/-- `interface RegExp {}`. -/
def regExpDecl : GlobalDecl := .interfaceD "RegExp" [] [] []

/-- `interface SymbolConstructor` with the seven well-known symbol keys. -/
def symbolConstructorDecl : GlobalDecl :=
  .interfaceD "SymbolConstructor" [] []
    [.prop "iterator" true false tSym,
     .prop "asyncIterator" true false tSym,
     .prop "hasInstance" true false tSym,
     .prop "isConcatSpreadable" true false tSym,
     .prop "species" true false tSym,
     .prop "toPrimitive" true false tSym,
     .prop "toStringTag" true false tSym]

/-- `const Symbol: SymbolConstructor`. -/
def symbolConstDecl : GlobalDecl := .constD "Symbol" (tN "SymbolConstructor")

/-- `type PropertyKey = string | number | symbol`. -/
def propertyKeyDecl : GlobalDecl :=
  .typeAliasD "PropertyKey" [] (tUni [tStr, tNum, tSym])

/-- The fourteen utility-type aliases (src/unnamed/part_000 lines 134-147),
each transcribed from its alias body. -/
def utilityAliasDecls : List GlobalDecl :=
  [.typeAliasD "Partial" [tTp "T"]
     (tMapped "opt" "P" (tKeyof (tN "T")) (tIdx (tN "T") (tN "P"))),
   .typeAliasD "Required" [tTp "T"]
     (tMapped "remOpt" "P" (tKeyof (tN "T")) (tIdx (tN "T") (tN "P"))),
   .typeAliasD "Readonly" [tTp "T"]
     (tMapped "ro" "P" (tKeyof (tN "T")) (tIdx (tN "T") (tN "P"))),
   .typeAliasD "Pick" [tTp "T", tTpC "K" (tKeyof (tN "T"))]
     (tMapped "plain" "P" (tN "K") (tIdx (tN "T") (tN "P"))),
   .typeAliasD "Record" [tTpC "K" (tKeyof tAny), tTp "T"]
     (tMapped "plain" "P" (tN "K") (tN "T")),
   .typeAliasD "Exclude" [tTp "T", tTp "U"]
     (tCond (tN "T") (tN "U") tNever (tN "T")),
   .typeAliasD "Extract" [tTp "T", tTp "U"]
     (tCond (tN "T") (tN "U") (tN "T") tNever),
   .typeAliasD "Omit" [tTp "T", tTpC "K" (tKeyof tAny)]
     (tRef "Pick" [tN "T", tRef "Exclude" [tKeyof (tN "T"), tN "K"]]),
   .typeAliasD "NonNullable" [tTp "T"]
     (tCond (tN "T") (tUni [tNull, tUndef]) tNever (tN "T")),
   .typeAliasD "Parameters" [tTpC "T" (tFn [tRestParam "args" tAny] tAny)]
     (tCond (tN "T") (tFn [tRestParam "args" (tInfer "P")] tAny) (tN "P") tNever),
   .typeAliasD "ConstructorParameters" [tTpC "T" (tCtorT [tRestParam "args" tAny] tAny)]
     (tCond (tN "T") (tCtorT [tRestParam "args" (tInfer "P")] tAny) (tN "P") tNever),
   .typeAliasD "ReturnType" [tTpC "T" (tFn [tRestParam "args" tAny] tAny)]
     (tCond (tN "T") (tFn [tRestParam "args" tAny] (tInfer "R")) (tN "R") tAny),
   .typeAliasD "InstanceType" [tTpC "T" (tCtorT [tRestParam "args" tAny] tAny)]
     (tCond (tN "T") (tCtorT [tRestParam "args" tAny] (tInfer "R")) (tN "R") tAny),
   .typeAliasD "Awaited" [tTp "T"]
     (tCond (tN "T") (tRef "PromiseLike" [tInfer "U"]) (tRef "Awaited" [tN "U"]) (tN "T"))]

/-- `interface Promise<T>` with `then`, `catch`, `finally`. -/
def promiseDecl : GlobalDecl :=
  .interfaceD "Promise" [tTp "T"] []
    [.meth "then" false [tTpD "TResult1" (tN "T"), tTpD "TResult2" tNever]
       [tOptParam "onfulfilled"
          (tUni [tFn [tParam "value" (tN "T")]
                   (tUni [tN "TResult1", tRef "PromiseLike" [tN "TResult1"]]),
                 tUndef, tNull]),
        tOptParam "onrejected"
          (tUni [tFn [tParam "reason" tAny]
                   (tUni [tN "TResult2", tRef "PromiseLike" [tN "TResult2"]]),
                 tUndef, tNull])]
       (tRef "Promise" [tUni [tN "TResult1", tN "TResult2"]]),
     .meth "catch" false [tTpD "TResult" tNever]
       [tOptParam "onrejected"
          (tUni [tFn [tParam "reason" tAny]
                   (tUni [tN "TResult", tRef "PromiseLike" [tN "TResult"]]),
                 tUndef, tNull])]
       (tRef "Promise" [tUni [tN "T", tN "TResult"]]),
     .meth "finally" false []
       [tOptParam "onfinally" (tUni [tFn [] tVoid, tUndef, tNull])]
       (tRef "Promise" [tN "T"])]

/-- `interface PromiseLike<T>` with `then`. -/
def promiseLikeDecl : GlobalDecl :=
  .interfaceD "PromiseLike" [tTp "T"] []
    [.meth "then" false [tTpD "TResult1" (tN "T"), tTpD "TResult2" tNever]
       [tOptParam "onfulfilled"
          (tUni [tFn [tParam "value" (tN "T")]
                   (tUni [tN "TResult1", tRef "PromiseLike" [tN "TResult1"]]),
                 tUndef, tNull]),
        tOptParam "onrejected"
          (tUni [tFn [tParam "reason" tAny]
                   (tUni [tN "TResult2", tRef "PromiseLike" [tN "TResult2"]]),
                 tUndef, tNull])]
       (tRef "PromiseLike" [tUni [tN "TResult1", tN "TResult2"]])]

/-- `interface PromiseConstructor` with its construct signature and the
`resolve` (two overloads), `reject`, `all`, `race` methods. -/
def promiseConstructorDecl : GlobalDecl :=
  .interfaceD "PromiseConstructor" [] []
    [.ctorMem [tTp "T"]
       [tParam "executor"
          (tFn [tParam "resolve"
                  (tFn [tParam "value" (tUni [tN "T", tRef "PromiseLike" [tN "T"]])] tVoid),
                tParam "reject" (tFn [tOptParam "reason" tAny] tVoid)]
             tVoid)]
       (tRef "Promise" [tN "T"]),
     .meth "resolve" false [] [] (tRef "Promise" [tVoid]),
     .meth "resolve" false [tTp "T"]
       [tParam "value" (tUni [tN "T", tRef "PromiseLike" [tN "T"]])]
       (tRef "Promise" [tN "T"]),
     .meth "reject" false [tTpD "T" tNever] [tOptParam "reason" tAny]
       (tRef "Promise" [tN "T"]),
     .meth "all" false [tTp "T"]
       [tParam "values" (tRoArr (tUni [tN "T", tRef "PromiseLike" [tN "T"]]))]
       (tRef "Promise" [tArr (tN "T")]),
     .meth "race" false [tTp "T"]
       [tParam "values" (tRoArr (tUni [tN "T", tRef "PromiseLike" [tN "T"]]))]
       (tRef "Promise" [tN "T"])]

/-- `const Promise: PromiseConstructor`. -/
def promiseConstDecl : GlobalDecl := .constD "Promise" (tN "PromiseConstructor")

/-- `interface Iterator<T, TReturn = any, TNext = undefined>`. -/
def iteratorDecl : GlobalDecl :=
  .interfaceD "Iterator" [tTp "T", tTpD "TReturn" tAny, tTpD "TNext" tUndef] []
    [.meth "next" false [] [tRestParam "args" (tUni [tTuple [], tTuple [tN "TNext"]])]
       (tRef "IteratorResult" [tN "T", tN "TReturn"]),
     .meth "return" true [] [tOptParam "value" (tN "TReturn")]
       (tRef "IteratorResult" [tN "T", tN "TReturn"]),
     .meth "throw" true [] [tOptParam "e" tAny]
       (tRef "IteratorResult" [tN "T", tN "TReturn"])]

/-- `interface IteratorResult<T, TReturn = any>`. -/
def iteratorResultDecl : GlobalDecl :=
  .interfaceD "IteratorResult" [tTp "T", tTpD "TReturn" tAny] []
    [.prop "done" false false tBool,
     .prop "value" false false (tUni [tN "T", tN "TReturn"])]

/-- `interface IteratorYieldResult<T>` with `done: false`. -/
def iteratorYieldResultDecl : GlobalDecl :=
  .interfaceD "IteratorYieldResult" [tTp "T"] []
    [.prop "done" false false (tLitBool false),
     .prop "value" false false (tN "T")]

/-- `interface IteratorReturnResult<TReturn>` with `done: true`. -/
def iteratorReturnResultDecl : GlobalDecl :=
  .interfaceD "IteratorReturnResult" [tTp "TReturn"] []
    [.prop "done" false false (tLitBool true),
     .prop "value" false false (tN "TReturn")]

/-- `interface Iterable<T, TReturn = any, TNext = undefined>`. -/
def iterableDecl : GlobalDecl :=
  .interfaceD "Iterable" [tTp "T", tTpD "TReturn" tAny, tTpD "TNext" tUndef] []
    [.symMeth "iterator" [] (tRef "Iterator" [tN "T", tN "TReturn", tN "TNext"])]

/-- `interface IterableIterator<T, TReturn = any, TNext = undefined> extends Iterator`. -/
def iterableIteratorDecl : GlobalDecl :=
  .interfaceD "IterableIterator" [tTp "T", tTpD "TReturn" tAny, tTpD "TNext" tUndef]
    [tRef "Iterator" [tN "T", tN "TReturn", tN "TNext"]]
    [.symMeth "iterator" [] (tRef "IterableIterator" [tN "T", tN "TReturn", tN "TNext"])]

/-- `interface AsyncIterator<T, TReturn = any, TNext = undefined>`. -/
def asyncIteratorDecl : GlobalDecl :=
  .interfaceD "AsyncIterator" [tTp "T", tTpD "TReturn" tAny, tTpD "TNext" tUndef] []
    [.meth "next" false [] [tRestParam "args" (tUni [tTuple [], tTuple [tN "TNext"]])]
       (tRef "Promise" [tRef "IteratorResult" [tN "T", tN "TReturn"]]),
     .meth "return" true []
       [tOptParam "value" (tUni [tN "TReturn", tRef "PromiseLike" [tN "TReturn"]])]
       (tRef "Promise" [tRef "IteratorResult" [tN "T", tN "TReturn"]]),
     .meth "throw" true [] [tOptParam "e" tAny]
       (tRef "Promise" [tRef "IteratorResult" [tN "T", tN "TReturn"]])]

/-- `interface AsyncIterable<T, TReturn = any, TNext = undefined>`. -/
def asyncIterableDecl : GlobalDecl :=
  .interfaceD "AsyncIterable" [tTp "T", tTpD "TReturn" tAny, tTpD "TNext" tUndef] []
    [.symMeth "asyncIterator" [] (tRef "AsyncIterator" [tN "T", tN "TReturn", tN "TNext"])]

/-- `interface AsyncIterableIterator<...> extends AsyncIterator<...>`. -/
def asyncIterableIteratorDecl : GlobalDecl :=
  .interfaceD "AsyncIterableIterator" [tTp "T", tTpD "TReturn" tAny, tTpD "TNext" tUndef]
    [tRef "AsyncIterator" [tN "T", tN "TReturn", tN "TNext"]]
    [.symMeth "asyncIterator" []
       (tRef "AsyncIterableIterator" [tN "T", tN "TReturn", tN "TNext"])]

/-- `interface Generator<T = unknown, TReturn = any, TNext = unknown> extends Iterator`. -/
def generatorDecl : GlobalDecl :=
  .interfaceD "Generator" [tTpD "T" tUnknown, tTpD "TReturn" tAny, tTpD "TNext" tUnknown]
    [tRef "Iterator" [tN "T", tN "TReturn", tN "TNext"]]
    [.meth "next" false [] [tRestParam "args" (tUni [tTuple [], tTuple [tN "TNext"]])]
       (tRef "IteratorResult" [tN "T", tN "TReturn"]),
     .meth "return" false [] [tParam "value" (tN "TReturn")]
       (tRef "IteratorResult" [tN "T", tN "TReturn"]),
     .meth "throw" false [] [tParam "e" tAny]
       (tRef "IteratorResult" [tN "T", tN "TReturn"]),
     .symMeth "iterator" [] (tRef "Generator" [tN "T", tN "TReturn", tN "TNext"])]

/-- `interface AsyncGenerator<T = unknown, TReturn = any, TNext = unknown> extends AsyncIterator`. -/
def asyncGeneratorDecl : GlobalDecl :=
  .interfaceD "AsyncGenerator" [tTpD "T" tUnknown, tTpD "TReturn" tAny, tTpD "TNext" tUnknown]
    [tRef "AsyncIterator" [tN "T", tN "TReturn", tN "TNext"]]
    [.meth "next" false [] [tRestParam "args" (tUni [tTuple [], tTuple [tN "TNext"]])]
       (tRef "Promise" [tRef "IteratorResult" [tN "T", tN "TReturn"]]),
     .meth "return" false []
       [tParam "value" (tUni [tN "TReturn", tRef "PromiseLike" [tN "TReturn"]])]
       (tRef "Promise" [tRef "IteratorResult" [tN "T", tN "TReturn"]]),
     .meth "throw" false [] [tParam "e" tAny]
       (tRef "Promise" [tRef "IteratorResult" [tN "T", tN "TReturn"]]),
     .symMeth "asyncIterator" [] (tRef "AsyncGenerator" [tN "T", tN "TReturn", tN "TNext"])]

/-- The four compiler-intrinsic template-literal aliases. -/
def intrinsicAliasDecls : List GlobalDecl :=
  [.typeAliasD "Uppercase" [tTpC "S" tStr] tIntrinsic,
   .typeAliasD "Lowercase" [tTpC "S" tStr] tIntrinsic,
   .typeAliasD "Capitalize" [tTpC "S" tStr] tIntrinsic,
   .typeAliasD "Uncapitalize" [tTpC "S" tStr] tIntrinsic]

/-- All declarations of the `declare global` block of src/unnamed/part_000,
in source order. -/
def decls : List GlobalDecl :=
  [errorDecl, arrayDecl, readonlyArrayDecl, arrayConstructorDecl,
   arrayConstDecl, stringDecl, numberDecl, booleanDecl, objectDecl,
   functionDecl, callableFunctionDecl, newableFunctionDecl, iArgumentsDecl,
   regExpDecl, symbolConstructorDecl, symbolConstDecl, propertyKeyDecl]
  ++ utilityAliasDecls
  ++ [promiseDecl, promiseLikeDecl, promiseConstructorDecl, promiseConstDecl,
      iteratorDecl, iteratorResultDecl, iteratorYieldResultDecl,
      iteratorReturnResultDecl, iterableDecl, iterableIteratorDecl,
      asyncIteratorDecl, asyncIterableDecl, asyncIterableIteratorDecl,
      generatorDecl, asyncGeneratorDecl]
  ++ intrinsicAliasDecls

/-- The whole file src/unnamed/part_000: three imports, the global block
and the empty export. -/
def file : List TopLevel :=
  [.importD false
     ["Array$instance", "__Array$views", "String$instance", "__String$views",
      "Double$instance", "__Double$views", "Boolean$instance", "__Boolean$views",
      "Object$instance"]
     "@tsonic/dotnet" "System/internal/index.js",
   .importD true ["IEnumerator"] "@tsonic/dotnet" "System.Collections/internal/index.js",
   .importD false ["IEnumerable_1", "IEnumerator_1"]
     "@tsonic/dotnet" "System.Collections.Generic/internal/index.js",
   .globalBlock decls,
   .exportEmpty]

end Part000

/-- Name of an ambient declaration. -/
def GlobalDecl.name : GlobalDecl → String
  | .interfaceD n _ _ _ => n
  | .classD n _ _ => n
  | .typeAliasD n _ _ => n
  | .constD n _ => n

/-- Whether the declaration is an interface. -/
def GlobalDecl.isInterface : GlobalDecl → Bool
  | .interfaceD _ _ _ _ => true
  | _ => false

/-- Whether the declaration introduces a name in the type declaration
space (interfaces, classes and type aliases do; consts do not). -/
def GlobalDecl.occupiesTypeNs : GlobalDecl → Bool
  | .interfaceD _ _ _ _ => true
  | .classD _ _ _ => true
  | .typeAliasD _ _ _ => true
  | .constD _ _ => false

/-- Whether the declaration introduces a name in the value declaration
space (consts and classes do). -/
def GlobalDecl.occupiesValueNs : GlobalDecl → Bool
  | .classD _ _ _ => true
  | .constD _ _ => true
  | _ => false

/-- First declaration of name `n` in the type declaration space. -/
def typeDecl? (n : String) (ds : List GlobalDecl) : Option GlobalDecl :=
  ds.find? (fun d => d.name == n && d.occupiesTypeNs)

/-- First declaration of name `n` in the value declaration space. -/
def valueDecl? (n : String) (ds : List GlobalDecl) : Option GlobalDecl :=
  ds.find? (fun d => d.name == n && d.occupiesValueNs)

/-- Head name of a type reference, if the expression is one. -/
def teHeadName : TE → Option String
  | TE.pair (TE.atom "ref") (TE.pair (TE.atom n) _) => some n
  | _ => none

/-- Extends clause of the interface named `n`. -/
def parentsOf (n : String) (ds : List GlobalDecl) : Option (List TE) :=
  match typeDecl? n ds with
  | some (.interfaceD _ _ ps _) => some ps
  | _ => none

/-- Member list of the interface or class named `n`. -/
def membersOf (n : String) (ds : List GlobalDecl) : Option (List Member) :=
  match typeDecl? n ds with
  | some (.interfaceD _ _ _ ms) => some ms
  | some (.classD _ _ ms) => some ms
  | _ => none

/-- Names referenced in the extends clause of the interface named `n`. -/
def parentNames (n : String) (ds : List GlobalDecl) : List String :=
  ((parentsOf n ds).getD []).filterMap teHeadName

/-- All type names referenced anywhere inside a type expression. -/
def collectRefs : TE → List String
  | TE.pair (TE.atom "ref") (TE.pair (TE.atom n) args) => n :: collectRefs args
  | TE.pair a b => collectRefs a ++ collectRefs b
  | TE.atom _ => []

/-- All type names referenced by a member signature. -/
def Member.refs : Member → List String
  | .meth _ _ tps ps r =>
      (tps.map collectRefs).flatten ++ (ps.map collectRefs).flatten ++ collectRefs r
  | .prop _ _ _ t => collectRefs t
  | .idx _ k v => collectRefs k ++ collectRefs v
  | .symMeth _ ps r => (ps.map collectRefs).flatten ++ collectRefs r
  | .ctorMem tps ps r =>
      (tps.map collectRefs).flatten ++ (ps.map collectRefs).flatten ++ collectRefs r

/-- All type names referenced by a declaration. -/
def GlobalDecl.refs : GlobalDecl → List String
  | .interfaceD _ tps ps ms =>
      (tps.map collectRefs).flatten ++ (ps.map collectRefs).flatten
        ++ (ms.map Member.refs).flatten
  | .classD _ tps ms => (tps.map collectRefs).flatten ++ (ms.map Member.refs).flatten
  | .typeAliasD _ tps b => (tps.map collectRefs).flatten ++ collectRefs b
  | .constD _ t => collectRefs t

/-- All type names referenced by a declaration set. -/
def usedRefs (ds : List GlobalDecl) : List String :=
  (ds.map GlobalDecl.refs).flatten

/-- The base-class-library shapes this repository relies on. -/
def bclNames : List String :=
  ["Array$instance", "__Array$views", "String$instance", "__String$views",
   "Double$instance", "__Double$views", "Boolean$instance", "__Boolean$views",
   "Object$instance", "IList_1", "ICollection_1", "IEnumerable_1",
   "IReadOnlyList_1", "IReadOnlyCollection_1", "IEnumerator", "IEnumerator_1"]

/-- BCL names appearing in the extends clause of interface `n`. -/
def bclParentNames (n : String) (ds : List GlobalDecl) : List String :=
  (parentNames n ds).filter (fun m => bclNames.contains m)

/-- BCL names used anywhere in a declaration set, deduplicated, in
first-use order. -/
def usedBclNames (ds : List GlobalDecl) : List String :=
  ((usedRefs ds).filter (fun m => bclNames.contains m)).dedup

/-- Imported names of a file, paired with the package they come from. -/
def importsOf (f : List TopLevel) : List (String × String) :=
  (f.map (fun t =>
    match t with
    | .importD _ ns pkg _ => ns.map (fun n => (n, pkg))
    | _ => [])).flatten

/-- Names a file imports from the @tsonic/dotnet package. -/
def importedFromDotnet (f : List TopLevel) : List String :=
  (importsOf f).filterMap
    (fun p => if p.2 == "@tsonic/dotnet" then some p.1 else none)

/-- Ambient declarations contributed by the `declare global` blocks of a file. -/
def globalDeclsOf (f : List TopLevel) : List GlobalDecl :=
  (f.map (fun t =>
    match t with
    | .globalBlock ds => ds
    | _ => [])).flatten

/-- Declarations a file makes at module scope, outside `declare global`. -/
def moduleScopeDecls (f : List TopLevel) : List GlobalDecl :=
  f.filterMap (fun t =>
    match t with
    | .moduleDecl d => some d
    | _ => none)

/-- Whether a top-level construct is purely declarative (everything except
an executable statement). -/
def TopLevel.isDeclarative : TopLevel → Bool
  | .runtimeStmt _ => false
  | _ => true

/-- Runtime effects of loading a file: the executable statements it would
run, in order.  Declarations, imports of types and the empty export run
nothing. -/
def evalEffects (f : List TopLevel) : List String :=
  f.filterMap (fun t =>
    match t with
    | .runtimeStmt s => some s
    | _ => none)

/-- Bool-valued pairwise check over a list. -/
def pairwiseOK (f : α → α → Bool) : List α → Bool
  | [] => true
  | x :: xs => xs.all (f x) && pairwiseOK f xs

/-- Whether two distinct declarations of the same name merge without a
checker error: they must not collide in the value declaration space, and
may share the type declaration space only if both are interfaces
(interface merging). -/
def mergeOK (d e : GlobalDecl) : Bool :=
  (!(d.occupiesTypeNs && e.occupiesTypeNs) || (d.isInterface && e.isInterface))
    && !(d.occupiesValueNs && e.occupiesValueNs)

/-- Every pair of same-named declarations in the set merges cleanly. -/
def noNameKindConflicts (ds : List GlobalDecl) : Bool :=
  pairwiseOK (fun d e => d.name != e.name || mergeOK d e) ds

/-- Whether two members of one interface conflict under declaration
merging.  Method signatures with the same name always merge as an
overload list, whatever their parameter and return types, so only a
property against a property of a different type, or a property against
a method of the same name, is a checker error. -/
def conflicting : Member → Member → Bool
  | .prop n1 _ _ t1, .prop n2 _ _ t2 => n1 == n2 && t1 != t2
  | .prop n1 _ _ _, .meth n2 _ _ _ _ => n1 == n2
  | .meth n1 _ _ _ _, .prop n2 _ _ _ => n1 == n2
  | _, _ => false

/-- No two members of the declaration conflict. -/
def GlobalDecl.membersOK : GlobalDecl → Bool
  | .interfaceD _ _ _ ms => pairwiseOK (fun a b => !conflicting a b) ms
  | .classD _ _ ms => pairwiseOK (fun a b => !conflicting a b) ms
  | _ => true

/-- A whole declaration set merges without checker errors. -/
def setMergesClean (ds : List GlobalDecl) : Bool :=
  noNameKindConflicts ds && ds.all GlobalDecl.membersOK

/-- Whether a member is a construct signature. -/
def Member.isCtorSig : Member → Bool
  | .ctorMem _ _ _ => true
  | _ => false

/-- Whether `new N(...)` type-checks against a declaration set: the name
must resolve in the value space to a class (whose constructor is used)
or to a const whose interface type carries a construct signature. -/
def newExprOK (n : String) (ds : List GlobalDecl) : Bool :=
  match valueDecl? n ds with
  | some (.classD _ _ _) => true
  | some (.constD _ t) =>
      match teHeadName t with
      | some i =>
          match typeDecl? i ds with
          | some (.interfaceD _ _ _ ms) => ms.any Member.isCtorSig
          | _ => false
      | none => false
  | _ => false


/-- Structural types for the semantics of the utility-type aliases.
Records carry their fields as (name, type, optional, readonly); a union
type is handled as a `List STy` of its members, matching the checker's
distribution of conditional types over unions. -/
inductive STy where
  | str : STy
  | num : STy
  | boolT : STy
  | nul : STy
  | undef : STy
  | never : STy
  | anyT : STy
  | unknownT : STy
  | lit : String → STy
  | recT : List (String × STy × Bool × Bool) → STy
  | fn : List STy → STy → STy
  | ctorFn : List STy → STy → STy
  | tupleT : List STy → STy
  | promiseLike : STy → STy

/-- Assignability test the checker applies for `extends` in a conditional
type, on the fragment of types the utility aliases are used with here:
everything is assignable to `any`, `never` to everything, a string
literal to `string`, and otherwise base types only to themselves. -/
def assignB : STy → STy → Bool
  | _, .anyT => true
  | .never, _ => true
  | .lit _, .str => true
  | .lit a, .lit b => a == b
  | .str, .str => true
  | .num, .num => true
  | .boolT, .boolT => true
  | .nul, .nul => true
  | .undef, .undef => true
  | .unknownT, .unknownT => true
  | _, _ => false

/-- A (non-union) type is assignable to a union when it is assignable to
one of its members. -/
def assignUnion (t : STy) (us : List STy) : Bool := us.any (assignB t)

namespace UtilTy

/-- Semantics of `type Partial<T> = { [P in keyof T]?: T[P] }`: the
homomorphic mapped type marks every field optional and keeps the rest of
the field unchanged.  Mapped types over `keyof` act on object types;
the claims apply the alias to record types only. -/
def Partial : STy → STy
  | .recT fs => .recT (fs.map (fun f => (f.1, f.2.1, true, f.2.2.2)))
  | t => t

/-- Semantics of `type Required<T> = { [P in keyof T]-?: T[P] }`. -/
def Required : STy → STy
  | .recT fs => .recT (fs.map (fun f => (f.1, f.2.1, false, f.2.2.2)))
  | t => t

/-- Semantics of `type Readonly<T> = { readonly [P in keyof T]: T[P] }`. -/
def Readonly : STy → STy
  | .recT fs => .recT (fs.map (fun f => (f.1, f.2.1, f.2.2.1, true)))
  | t => t

/-- Semantics of `type Pick<T, K extends keyof T> = { [P in K]: T[P] }`;
the key union `K` is a list of string-literal types. -/
def Pick : STy → List STy → STy
  | .recT fs, ks =>
      .recT (ks.filterMap (fun k =>
        match k with
        | .lit s => fs.find? (fun f => f.1 == s)
        | _ => none))
  | t, _ => t

/-- Semantics of `type Record<K extends keyof any, T> = { [P in K]: T }`. -/
def Record (ks : List STy) (t : STy) : STy :=
  .recT (ks.filterMap (fun k =>
    match k with
    | .lit s => some (s, t, false, false)
    | _ => none))

/-- Semantics of `type Exclude<T, U> = T extends U ? never : T`: the
conditional distributes over the union `T`, keeping the members that are
not assignable to `U`. -/
def Exclude (ts us : List STy) : List STy :=
  ts.filter (fun t => !assignUnion t us)

/-- Semantics of `type Extract<T, U> = T extends U ? T : never`. -/
def Extract (ts us : List STy) : List STy :=
  ts.filter (fun t => assignUnion t us)

/-- Semantics of `keyof T` on a record: the union of its key literals. -/
def keyof : STy → List STy
  | .recT fs => fs.map (fun f => .lit f.1)
  | _ => []

/-- Semantics of `type Omit<T, K extends keyof any> =
Pick<T, Exclude<keyof T, K>>`, by the same composition. -/
def Omit (t : STy) (ks : List STy) : STy :=
  Pick t (Exclude (keyof t) ks)

/-- Semantics of `type NonNullable<T> = T extends null | undefined ?
never : T`, distributed over the union `T`. -/
def NonNullable (ts : List STy) : List STy :=
  ts.filter (fun t => !assignUnion t [.nul, .undef])

/-- Semantics of `type Parameters<T> = T extends (...args: infer P) =>
any ? P : never`: the parameter list of a function type, as a tuple. -/
def Parameters : STy → STy
  | .fn ps _ => .tupleT ps
  | _ => .never

/-- Semantics of `type ConstructorParameters<T> = T extends new
(...args: infer P) => any ? P : never`. -/
def ConstructorParameters : STy → STy
  | .ctorFn ps _ => .tupleT ps
  | _ => .never

/-- Semantics of `type ReturnType<T> = T extends (...args: any) => infer
R ? R : any`. -/
def ReturnType : STy → STy
  | .fn _ r => r
  | _ => .anyT

/-- Semantics of `type InstanceType<T> = T extends new (...args: any) =>
infer R ? R : any`. -/
def InstanceType : STy → STy
  | .ctorFn _ r => r
  | _ => .anyT

/-- Semantics of `type Awaited<T> = T extends PromiseLike<infer U> ?
Awaited<U> : T`: unwrap `PromiseLike` layers recursively. -/
def Awaited : STy → STy
  | .promiseLike u => Awaited u
  | t => t

end UtilTy


/-- The four primitive surface types claim C3 quantifies over. -/
def primitiveSurfaceNames : List String := ["Array", "String", "Number", "Boolean"]

/-- Claim C3 as stated: for every one of the four primitive surface
types, the set of BCL interfaces merged onto it differs between the two
declaration sets. -/
def claimC3Stated : Prop :=
  ∀ n ∈ primitiveSurfaceNames,
    bclParentNames n IndexDts.decls ≠ bclParentNames n Part000.decls

/-- The global names whose declarations the two sets share verbatim:
everything except the Array-related declarations and the Error class. -/
def sharedSurfaceNames : List String :=
  ["String", "Number", "Boolean", "Object", "Function", "CallableFunction",
   "NewableFunction", "IArguments", "RegExp", "SymbolConstructor", "PropertyKey",
   "Partial", "Required", "Readonly", "Pick", "Record", "Exclude", "Extract",
   "Omit", "NonNullable", "Parameters", "ConstructorParameters", "ReturnType",
   "InstanceType", "Awaited", "Promise", "PromiseLike", "PromiseConstructor",
   "Iterator", "IteratorResult", "IteratorYieldResult", "IteratorReturnResult",
   "Iterable", "IterableIterator", "AsyncIterator", "AsyncIterable",
   "AsyncIterableIterator", "Generator", "AsyncGenerator",
   "Uppercase", "Lowercase", "Capitalize", "Uncapitalize"]

/-- Splitting a union by the `extends` test of a conditional type and
recombining the two branches permutes the original union. -/
theorem exclude_extract_perm (ts us : List STy) :
    (UtilTy.Exclude ts us ++ UtilTy.Extract ts us).Perm ts := by
  induction ts with
  | nil => simp [UtilTy.Exclude, UtilTy.Extract]
  | cons t ts ih =>
    by_cases h : assignUnion t us
    · have he : UtilTy.Exclude (t :: ts) us = UtilTy.Exclude ts us := by
        simp [UtilTy.Exclude, List.filter_cons, h]
      have hx : UtilTy.Extract (t :: ts) us = t :: UtilTy.Extract ts us := by
        simp [UtilTy.Extract, List.filter_cons, h]
      rw [he, hx]
      exact List.perm_middle.trans (ih.cons t)
    · have he : UtilTy.Exclude (t :: ts) us = t :: UtilTy.Exclude ts us := by
        simp [UtilTy.Exclude, List.filter_cons, h]
      have hx : UtilTy.Extract (t :: ts) us = UtilTy.Extract ts us := by
        simp [UtilTy.Extract, List.filter_cons, h]
      rw [he, hx]
      exact (ih.cons t)

/-- C1: in the set of src/index.d.ts the merged `Array<T>` extends
exactly Array$instance, __Array$views, IList_1<T>, ICollection_1<T>,
IEnumerable_1<T>, IReadOnlyList_1<T> and IReadOnlyCollection_1<T> and
declares exactly a numeric indexer and `[Symbol.iterator]`; in the set
of src/unnamed/part_000 it extends exactly Array$instance, __Array$views
and IEnumerable_1<T> and declares exactly the numeric indexer,
`[Symbol.iterator]` and the two `getEnumerator` overloads — no further
members appear on either merged `Array<T>`. -/
theorem array_surface_exact_per_mode :
    parentsOf "Array" IndexDts.decls =
      some [tN "Array$instance", tN "__Array$views", tRef "IList_1" [tN "T"],
            tRef "ICollection_1" [tN "T"], tRef "IEnumerable_1" [tN "T"],
            tRef "IReadOnlyList_1" [tN "T"], tRef "IReadOnlyCollection_1" [tN "T"]]
  ∧ membersOf "Array" IndexDts.decls =
      some [.idx false tNum (tN "T"),
            .symMeth "iterator" [] (tRef "IterableIterator" [tN "T"])]
  ∧ parentsOf "Array" Part000.decls =
      some [tN "Array$instance", tN "__Array$views", tRef "IEnumerable_1" [tN "T"]]
  ∧ membersOf "Array" Part000.decls =
      some [.idx false tNum (tN "T"),
            .symMeth "iterator" [] (tRef "IterableIterator" [tN "T"]),
            .meth "getEnumerator" false [] [] (tRef "IEnumerator_1" [tN "T"]),
            .meth "getEnumerator" false [] [] (tN "IEnumerator")] := by
  decide

/-- C2: each of the fourteen declared utility-type aliases, applied to a
sample argument, yields the structurally expected result; in particular
Partial adds `?` to every field, Required removes it, Pick keeps the
named field, and Omit drops it. -/
theorem utility_aliases_expected_shapes :
    UtilTy.Partial (.recT [("a", .num, false, false)])
      = .recT [("a", .num, true, false)]
  ∧ UtilTy.Required (.recT [("a", .num, true, false)])
      = .recT [("a", .num, false, false)]
  ∧ UtilTy.Readonly (.recT [("a", .num, false, false)])
      = .recT [("a", .num, false, true)]
  ∧ UtilTy.Pick (.recT [("a", .num, false, false), ("b", .str, false, false)]) [.lit "a"]
      = .recT [("a", .num, false, false)]
  ∧ UtilTy.Record [.lit "x", .lit "y"] .num
      = .recT [("x", .num, false, false), ("y", .num, false, false)]
  ∧ UtilTy.Exclude [.lit "a", .lit "b"] [.lit "a"] = [.lit "b"]
  ∧ UtilTy.Extract [.lit "a", .lit "b"] [.lit "a"] = [.lit "a"]
  ∧ UtilTy.Omit (.recT [("a", .num, false, false), ("b", .str, false, false)]) [.lit "a"]
      = .recT [("b", .str, false, false)]
  ∧ UtilTy.NonNullable [.str, .nul, .undef] = [.str]
  ∧ UtilTy.Parameters (.fn [.num, .str] .boolT) = .tupleT [.num, .str]
  ∧ UtilTy.ConstructorParameters (.ctorFn [.num] (.recT [])) = .tupleT [.num]
  ∧ UtilTy.ReturnType (.fn [.num] .str) = .str
  ∧ UtilTy.InstanceType (.ctorFn [] (.recT [("a", .num, false, false)]))
      = .recT [("a", .num, false, false)]
  ∧ UtilTy.Awaited (.promiseLike (.promiseLike .num)) = .num := by
  exact ⟨rfl, rfl, rfl, rfl, rfl, rfl, rfl, rfl, rfl, rfl, rfl, rfl, rfl, rfl⟩

/-- C3 fails as stated: the String surface merges exactly the same BCL
interfaces (String$instance, __String$views) in both declaration sets,
so it is not the case that every one of the four primitive surface
types differs between the sets. -/
theorem bcl_merge_claim_false : ¬claimC3Stated := by
  intro h
  exact (h "String" (by decide)) (by decide)

/-- C3 amended: the two declaration sets differ in the BCL collection
interfaces merged onto the array surface (Array and ReadonlyArray),
while the BCL interfaces merged onto the String, Number and Boolean
surfaces are the same in both sets. -/
theorem bcl_merge_differs_only_on_arrays :
    bclParentNames "Array" IndexDts.decls ≠ bclParentNames "Array" Part000.decls
  ∧ bclParentNames "ReadonlyArray" IndexDts.decls
      ≠ bclParentNames "ReadonlyArray" Part000.decls
  ∧ bclParentNames "String" IndexDts.decls = bclParentNames "String" Part000.decls
  ∧ bclParentNames "Number" IndexDts.decls = bclParentNames "Number" Part000.decls
  ∧ bclParentNames "Boolean" IndexDts.decls = bclParentNames "Boolean" Part000.decls := by
  decide

/-- C4: each declaration set on its own merges without a checker error:
no global name collides in a declaration space except by interface
merging, no interface holds two conflicting member declarations, and in
particular the two `getEnumerator()` overloads of `Array<T>` and
`ReadonlyArray<T>` in the part_000 set are both present and merge as
overloads, not as a conflict. -/
theorem declaration_merging_is_clean :
    setMergesClean IndexDts.decls = true
  ∧ setMergesClean Part000.decls = true
  ∧ Member.meth "getEnumerator" false [] [] (tRef "IEnumerator_1" [tN "T"])
      ∈ (membersOf "Array" Part000.decls).getD []
  ∧ Member.meth "getEnumerator" false [] [] (tN "IEnumerator")
      ∈ (membersOf "Array" Part000.decls).getD []
  ∧ Member.meth "getEnumerator" false [] [] (tRef "IEnumerator_1" [tN "T"])
      ∈ (membersOf "ReadonlyArray" Part000.decls).getD []
  ∧ Member.meth "getEnumerator" false [] [] (tN "IEnumerator")
      ∈ (membersOf "ReadonlyArray" Part000.decls).getD []
  ∧ conflicting (Member.meth "getEnumerator" false [] [] (tRef "IEnumerator_1" [tN "T"]))
      (Member.meth "getEnumerator" false [] [] (tN "IEnumerator")) = false := by
  decide

/-- C5: every type, interface, class, alias and const declared by either
file sits inside its `declare global` block — neither file declares
anything at module scope outside the global block, and the global block
holds all (and only) the package's declarations, which is what makes
them visible without an explicit import. -/
theorem all_declarations_are_global_ambient :
    moduleScopeDecls IndexDts.file = []
  ∧ moduleScopeDecls Part000.file = []
  ∧ globalDeclsOf IndexDts.file = IndexDts.decls
  ∧ globalDeclsOf Part000.file = Part000.decls
  ∧ IndexDts.decls ≠ []
  ∧ Part000.decls ≠ [] := by
  decide

/-- C6: every BCL shape a declaration set uses is imported by name from
the @tsonic/dotnet package in that set's file, the two sets together use
exactly the sixteen BCL shapes, and no BCL shape is declared locally by
either set. -/
theorem bcl_shapes_imported_not_local :
    (usedBclNames IndexDts.decls).all
        (fun b => (importedFromDotnet IndexDts.file).contains b) = true
  ∧ (usedBclNames Part000.decls).all
        (fun b => (importedFromDotnet Part000.file).contains b) = true
  ∧ bclNames.all
        (fun b => (usedBclNames IndexDts.decls ++ usedBclNames Part000.decls).contains b) = true
  ∧ bclNames.all
        (fun b => !(IndexDts.decls.map GlobalDecl.name).contains b
          && !(Part000.decls.map GlobalDecl.name).contains b) = true := by
  decide

/-- C7: both files consist solely of declarative top-level constructs
(imports, the `declare global` block, the empty export); loading either
file executes no statement, so evaluation has no effects and no runtime
error path. -/
theorem files_are_purely_declarative :
    IndexDts.file.all TopLevel.isDeclarative = true
  ∧ Part000.file.all TopLevel.isDeclarative = true
  ∧ evalEffects IndexDts.file = []
  ∧ evalEffects Part000.file = [] := by
  decide

/-- C8: on the shared surface the two sets agree exactly — for every
shared global name both sets carry a structurally identical declaration
— and the declarations present in one set but not the other are exactly
the Array-related ones (Array, ReadonlyArray, ArrayConstructor and the
Array const) and the Error class. -/
theorem shared_surface_identical :
    sharedSurfaceNames.all
        (fun n => decide (typeDecl? n IndexDts.decls = typeDecl? n Part000.decls)
          && (typeDecl? n IndexDts.decls).isSome) = true
  ∧ valueDecl? "Symbol" IndexDts.decls = valueDecl? "Symbol" Part000.decls
  ∧ valueDecl? "Promise" IndexDts.decls = valueDecl? "Promise" Part000.decls
  ∧ (IndexDts.decls.filter (fun d => !(Part000.decls.contains d))).map GlobalDecl.name
      = ["Array", "ReadonlyArray"]
  ∧ (Part000.decls.filter (fun d => !(IndexDts.decls.contains d))).map GlobalDecl.name
      = ["Error", "Array", "ReadonlyArray", "ArrayConstructor", "Array"] := by
  decide

/-- C9: the part_000 set declares an ambient Error class (fields `name`,
`message`, optional `stack`, constructor taking an optional message) and
an ArrayConstructor interface with a global `const Array`, both absent
from the index.d.ts set, so `new Error(msg)` and `new Array<T>(size)`
type-check only under the part_000 set. -/
theorem error_and_array_constructor_only_in_part000 :
    typeDecl? "Error" Part000.decls =
      some (.classD "Error" []
        [.prop "name" false false tStr,
         .prop "message" false false tStr,
         .prop "stack" false true tStr,
         .ctorMem [] [tOptParam "message" tStr] (tN "Error")])
  ∧ typeDecl? "Error" IndexDts.decls = none
  ∧ valueDecl? "Error" IndexDts.decls = none
  ∧ typeDecl? "ArrayConstructor" Part000.decls =
      some (.interfaceD "ArrayConstructor" [] []
        [.ctorMem [tTp "T"] [tOptParam "size" tNum] (tArr (tN "T"))])
  ∧ typeDecl? "ArrayConstructor" IndexDts.decls = none
  ∧ valueDecl? "Array" Part000.decls = some (.constD "Array" (tN "ArrayConstructor"))
  ∧ valueDecl? "Array" IndexDts.decls = none
  ∧ newExprOK "Error" Part000.decls = true
  ∧ newExprOK "Error" IndexDts.decls = false
  ∧ newExprOK "Array" Part000.decls = true
  ∧ newExprOK "Array" IndexDts.decls = false := by
  decide

/-- C10: the conditional aliases Exclude and Extract partition any
union: each member of the union lands in exactly one of the two sides,
and the union of the two sides is the original union (as a set, and
even as a permutation of the member list). -/
theorem exclude_extract_partition :
    ∀ (ts us : List STy),
      (∀ x, x ∈ UtilTy.Exclude ts us ++ UtilTy.Extract ts us ↔ x ∈ ts)
    ∧ (∀ x, ¬(x ∈ UtilTy.Exclude ts us ∧ x ∈ UtilTy.Extract ts us))
    ∧ (UtilTy.Exclude ts us ++ UtilTy.Extract ts us).Perm ts := by
  intro ts us
  refine ⟨fun x => ?_, fun x h => ?_, exclude_extract_perm ts us⟩
  · exact (exclude_extract_perm ts us).mem_iff
  · obtain ⟨h1, h2⟩ := h
    rw [UtilTy.Exclude, List.mem_filter] at h1
    rw [UtilTy.Extract, List.mem_filter] at h2
    rw [h2.2] at h1
    exact absurd h1.2 (by decide)

/-- Witness for C10 at a concrete union: `number` is in the recombined
union of Exclude and Extract for the union `number | null` split along
`null`, and is not in both sides at once. -/
theorem exclude_extract_partition_witness :
    (STy.num ∈ UtilTy.Exclude [STy.num, STy.nul] [STy.nul]
        ++ UtilTy.Extract [STy.num, STy.nul] [STy.nul])
  ∧ ¬(STy.num ∈ UtilTy.Exclude [STy.num, STy.nul] [STy.nul]
        ∧ STy.num ∈ UtilTy.Extract [STy.num, STy.nul] [STy.nul]) :=
  ⟨((exclude_extract_partition [STy.num, STy.nul] [STy.nul]).1 STy.num).mpr
      (List.mem_cons_self _ _),
   (exclude_extract_partition [STy.num, STy.nul] [STy.nul]).2.1 STy.num⟩
